import Mathlib

/-!
Shallow embedding of `src/code.cc`: a minimal eager coroutine task library
built from `CoroutineRetvalHolder` (the result cell), `CoroutineAwaitResume`
and `Async` (the dual-mode awaitable), `Promise` (the publish step) and
`Task` (the owning handle).  Stateful code is modelled by explicit state
passing; `std::terminate` by an `Outcome` error value; the per-cell mutex by
an instrumented event trace over which lock discipline is stated.
-/

namespace CodeCC

/-- Coroutine handles (`std::coroutine_handle<>`) are opaque to the cell; we
name them by numbers. -/
abbrev Handle := Nat

/-- Embeds `CoroutineRetvalHolder<RETVAL>` (lines 23 to 29 of `src/code.cc`):
the mutex-guarded result cell with the `returned` flag (initially false), the
`value` slot (default-initialized until a publish writes it) and the FIFO
waiter vector `to_resume`.  The mutex itself carries no data; lock discipline
is modelled by the event traces further down. -/
structure Holder (T : Type) where
  returned : Bool := false
  value : T
  to_resume : List Handle := []
deriving DecidableEq

/-- Embeds the `CoroutineRetvalHolder<void>` specialization (lines 31 to 36):
same cell without the value slot. -/
structure VoidHolder where
  returned : Bool := false
  to_resume : List Handle := []
deriving DecidableEq

/-- Result of a call that may reach `std::terminate()`. -/
inductive Outcome (T : Type) where
  | ok (v : T)
  | terminated
deriving DecidableEq

/-- Embeds the state of `CoroutineAwaitResume<RETVAL>` and `Async<RETVAL>`
(lines 38 to 48 and 86 to 88): either an immediate value (`is_immediate` is
true, `pself` null) or a deferred awaitable whose `pself` points at a cell it
does not own.  The referenced cell state is passed explicitly. -/
inductive AsyncOf (T : Type) where
  | immediate (v : T)
  | deferred (cell : Holder T)
deriving DecidableEq

/-- Embeds `CoroutineAwaitResume<RETVAL>::await_resume` (lines 50 to 61): the
immediate variant returns the carried value; the deferred variant locks the
cell, calls `std::terminate()` when `returned` is still false, and otherwise
returns the stored value. -/
def coroutineAwaitResume {T : Type} (a : AsyncOf T) : Outcome T :=
  match a with
  | .immediate v => .ok v
  | .deferred cell => if cell.returned then .ok cell.value else .terminated

/-- Embeds `Async<RETVAL>::await_ready` (lines 90 to 110, with TELEMETRY not
defined): the immediate variant is always ready; the deferred variant returns
the current `returned` flag of its cell, read under the mutex (the lock
discipline is `asyncAwaitReadyTrace` below). -/
def asyncAwaitReady {T : Type} (a : AsyncOf T) : Bool :=
  match a with
  | .immediate _ => true
  | .deferred cell => cell.returned

/-- Embeds `Async<RETVAL>::await_suspend` (lines 112 to 124): the deferred
variant locks the cell and either resumes `h` at once (cell already
returned) or appends `h` to `to_resume`; the immediate variant prints FATAL
and calls `std::terminate()`.  Result: the new cell state plus the handles
resumed during the call. -/
def asyncAwaitSuspend {T : Type} (a : AsyncOf T) (h : Handle) :
    Outcome (Holder T × List Handle) :=
  match a with
  | .immediate _ => .terminated
  | .deferred cell =>
    if cell.returned then .ok (cell, [h])
    else .ok ({ cell with to_resume := cell.to_resume ++ [h] }, [])

/-- Embeds `Promise<T>::return_value` (lines 140 to 147): under the lock,
store the value, set `returned := true`, then resume every handle of
`to_resume` in order; the loop runs before the `lock_guard` scope ends (see
`returnValueTrace`) and the vector is not cleared.  Result: the new cell
state plus the handles resumed, in resumption order. -/
def returnValue {T : Type} (cell : Holder T) (v : T) : Holder T × List Handle :=
  ({ cell with value := v, returned := true }, cell.to_resume)

/-- Embeds `Promise<void>::return_void` (lines 159 to 165): as `returnValue`
minus the value write. -/
def returnVoid (cell : VoidHolder) : VoidHolder × List Handle :=
  ({ cell with returned := true }, cell.to_resume)

/-- Embeds `Task<T>::await_ready` (lines 180 to 182): reads
`handle.promise().holder.returned` directly, without acquiring the mutex
(trace `taskAwaitReadyTrace` below; contrast `asyncAwaitReadyTrace`). -/
def taskAwaitReady {T : Type} (cell : Holder T) : Bool :=
  cell.returned

/-- Embeds `Task<T>::await_suspend` (lines 184 to 191): lock the cell, then
either resume `h` at once (cell already returned) or append `h` to
`to_resume`; same logic as the deferred branch of `asyncAwaitSuspend`. -/
def taskAwaitSuspend {T : Type} (cell : Holder T) (h : Handle) :
    Holder T × List Handle :=
  if cell.returned then (cell, [h])
  else ({ cell with to_resume := cell.to_resume ++ [h] }, [])

/-- Embeds `Task<T>::await_resume` for non-void T (lines 193 to 199): returns
`handle.promise().holder.value` unconditionally, with no lock and no
completion check. -/
def taskAwaitResume {T : Type} (cell : Holder T) : Outcome T :=
  .ok cell.value

/-- The three guarded fields of a result cell. -/
inductive CellField where
  | returned
  | value
  | waiters
deriving DecidableEq

/-- Events of one call on a cell, used to state lock discipline: mutex
acquire and release, field reads and writes, continuation resumption. -/
inductive Ev where
  | acquire
  | release
  | read (f : CellField)
  | write (f : CellField)
  | resume (h : Handle)
deriving DecidableEq

def isAcquire : Ev → Bool
  | .acquire => true
  | _ => false

def isRelease : Ev → Bool
  | .release => true
  | _ => false

/-- The mutex of the cell is held when the event at index `i` of trace `tr`
runs: the prefix before `i` holds more acquires than releases. -/
def heldAt (tr : List Ev) (i : Nat) : Bool :=
  (tr.take i).countP isRelease < (tr.take i).countP isAcquire

/-- Event trace of `Promise<T>::return_value` (lines 140 to 147): the
`lock_guard` acquires at entry and releases at scope exit, after the
resumption loop over `to_resume`. -/
def returnValueTrace {T : Type} (cell : Holder T) : List Ev :=
  Ev.acquire :: Ev.write .value :: Ev.write .returned :: Ev.read .waiters ::
    (cell.to_resume.map Ev.resume ++ [Ev.release])

/-- Event trace of `Promise<void>::return_void` (lines 159 to 165). -/
def returnVoidTrace (cell : VoidHolder) : List Ev :=
  Ev.acquire :: Ev.write .returned :: Ev.read .waiters ::
    (cell.to_resume.map Ev.resume ++ [Ev.release])

/-- Event trace of the deferred branch of `Async<RETVAL>::await_ready`
(lines 91 to 94): the `returned` read sits between acquire and release. -/
def asyncAwaitReadyTrace : List Ev :=
  [Ev.acquire, Ev.read .returned, Ev.release]

/-- Event trace of `Task<T>::await_ready` (lines 180 to 182): a bare read of
`returned`, no acquire anywhere. -/
def taskAwaitReadyTrace : List Ev :=
  [Ev.read .returned]

/-- Event trace of `Task<T>::await_resume` for non-void T (lines 193 to
199): a bare read of `value`, no acquire anywhere. -/
def taskAwaitResumeTrace : List Ev :=
  [Ev.read .value]

/-- Embeds the data of `Task<T>` (lines 168 to 200): a wrapped
`std::coroutine_handle<promise_type>`, where `none` models a null handle. -/
structure TaskObj where
  handle : Option Nat
deriving DecidableEq

/-- Embeds the move constructor `Task(Task&& rhs)` (line 175): the new task
steals the handle and the source handle is set to null.  Result: (moved-to,
moved-from).  The copy constructor (line 174) is deleted, so the embedding
has no copy operation. -/
def taskMoveCtor (rhs : TaskObj) : TaskObj × TaskObj :=
  ({ handle := rhs.handle }, { handle := none })

/-- Embeds the destructor of `Task` (lines 176 to 178): `handle.destroy()`
runs iff the handle is non-null.  Returns whether a destroy is performed. -/
def taskDtorDestroys (t : TaskObj) : Bool :=
  t.handle.isSome

/-- The awaiter kind returned by a suspend-point customisation. -/
inductive SuspendKind where
  | suspendNever
  | suspendAlways
deriving DecidableEq

/-- `Promise<T>::final_suspend` and `Promise<void>::final_suspend` return
`std::suspend_never` (lines 134 and 153). -/
def finalSuspendKind : SuspendKind := .suspendNever

/-- Per the C++ coroutine rules, a coroutine that does not suspend at its
final suspend point has its frame, and with it the promise and the result
cell inside the promise, destroyed automatically when the body completes.
That happens here exactly because `finalSuspendKind` is `suspendNever`. -/
def autoDestroyAtCompletion : Bool :=
  match finalSuspendKind with
  | .suspendNever => true
  | .suspendAlways => false

/-- Number of destroy operations the frame of one task undergoes: the
automatic destroy once the body has completed (governed by
`finalSuspendKind`), followed by the destroy performed in the destructor of
`Task` (lines 176 to 178); completion does not null the stored handle. -/
def frameDestroys (bodyCompleted : Bool) (t : TaskObj) : Nat :=
  (if bodyCompleted && autoDestroyAtCompletion then 1 else 0) +
  (if taskDtorDestroys t then 1 else 0)

/-- Embeds `ExecutorStats` (lines 7 to 11). -/
structure ExecutorStats where
  total_awaitable_ready : Nat := 0
  total_awaitable_need_to_wait : Nat := 0
  total_immediate_ready : Nat := 0
deriving DecidableEq

/-- Embeds `Async<RETVAL>::await_ready` with TELEMETRY defined (lines 90 to
110): the same branches and boolean results as `asyncAwaitReady`, plus
exactly one counter increment per call on the global `Executor().stats`. -/
def asyncAwaitReadyTelemetry {T : Type} (a : AsyncOf T) (s : ExecutorStats) :
    Bool × ExecutorStats :=
  match a with
  | .deferred cell =>
    if cell.returned then
      (true, { s with total_awaitable_ready := s.total_awaitable_ready + 1 })
    else
      (false, { s with total_awaitable_need_to_wait := s.total_awaitable_need_to_wait + 1 })
  | .immediate _ =>
    (true, { s with total_immediate_ready := s.total_immediate_ready + 1 })

/-- Register the waiters `ws` one after another through
`Task<T>::await_suspend`, threading the cell state. -/
def registerAll {T : Type} (cell : Holder T) (ws : List Handle) : Holder T :=
  ws.foldl (fun c w => (taskAwaitSuspend c w).fst) cell

theorem registerAll_not_returned {T : Type} (ws : List Handle) (cell : Holder T)
    (hnc : cell.returned = false) :
    (registerAll cell ws).returned = false ∧
    (registerAll cell ws).to_resume = cell.to_resume ++ ws := by
  induction ws generalizing cell with
  | nil => simp [registerAll, hnc]
  | cons w rest ih =>
    have hunfold : registerAll cell (w :: rest) =
        registerAll ({ cell with to_resume := cell.to_resume ++ [w] }) rest := by
      simp [registerAll, taskAwaitSuspend, hnc]
    have hrec := ih ({ cell with to_resume := cell.to_resume ++ [w] }) hnc
    rw [hunfold]
    refine ⟨hrec.1, ?_⟩
    rw [hrec.2]
    simp

/-- Claim C1: refuted by the code — `Promise<T>::return_value` resumes the
captured waiters while `holder.mut` is still held.  On a cell with one
registered waiter, the resume event (index 4 of the trace) runs with the
lock held, and the release only follows at index 5; likewise for
`Promise<void>::return_void` (indices 3 and 4).  The waiter list is not
swapped out and no continuation runs outside the critical section. -/
theorem returnValue_resumes_while_lock_held :
    (returnValueTrace ({ returned := false, value := 0, to_resume := [7] } : Holder Nat))[4]?
      = some (Ev.resume 7) ∧
    heldAt (returnValueTrace ({ returned := false, value := 0, to_resume := [7] } : Holder Nat)) 4
      = true ∧
    (returnValueTrace ({ returned := false, value := 0, to_resume := [7] } : Holder Nat))[5]?
      = some Ev.release ∧
    (returnVoidTrace { returned := false, to_resume := [7] })[3]? = some (Ev.resume 7) ∧
    heldAt (returnVoidTrace { returned := false, to_resume := [7] }) 3 = true ∧
    (returnVoidTrace { returned := false, to_resume := [7] })[4]? = some Ev.release := by
  decide

/-- Claim C2: refuted by the code — `Task<T>::await_ready` reads the
`returned` flag and `Task<T>::await_resume` reads the stored value with no
mutex acquire anywhere in their traces, while the deferred `Async`
readiness check does acquire the same mutex for the same read. -/
theorem taskAwaitReady_reads_without_lock :
    taskAwaitReadyTrace[0]? = some (Ev.read .returned) ∧
    heldAt taskAwaitReadyTrace 0 = false ∧
    Ev.acquire ∉ taskAwaitReadyTrace ∧
    taskAwaitResumeTrace[0]? = some (Ev.read .value) ∧
    heldAt taskAwaitResumeTrace 0 = false ∧
    Ev.acquire ∉ taskAwaitResumeTrace ∧
    Ev.acquire ∈ asyncAwaitReadyTrace := by
  decide

/-- Claim C3 counterexample: on a cell whose `returned` flag is still false,
`Task<T>::await_resume` returns the never-written stored value instead of
terminating — there is no completion check on the Task path. -/
theorem taskAwaitResume_returns_despite_incomplete :
    taskAwaitResume ({ returned := false, value := 0, to_resume := [] } : Holder Nat)
      = Outcome.ok 0 ∧
    taskAwaitResume ({ returned := false, value := 0, to_resume := [] } : Holder Nat)
      ≠ Outcome.terminated := by
  decide

/-- Claim C3 as amended: when the cell has `completed == false` at the time
of the call, `CoroutineAwaitResume<RETVAL>::await_resume` fails fatally as
specified, but `Task<T>::await_resume` performs no completion check and
returns the stored value instead of terminating. -/
theorem awaitResume_fatal_only_in_async_path (cell : Holder Nat)
    (hnc : cell.returned = false) :
    coroutineAwaitResume (.deferred cell) = Outcome.terminated ∧
    taskAwaitResume cell = Outcome.ok cell.value := by
  simp [coroutineAwaitResume, taskAwaitResume, hnc]

/-- Witness: `awaitResume_fatal_only_in_async_path` at a concrete cell. -/
theorem awaitResume_fatal_only_in_async_path_witness :
    coroutineAwaitResume
        (.deferred ({ returned := false, value := 5, to_resume := [] } : Holder Nat))
      = Outcome.terminated ∧
    taskAwaitResume ({ returned := false, value := 5, to_resume := [] } : Holder Nat)
      = Outcome.ok 5 :=
  awaitResume_fatal_only_in_async_path { returned := false, value := 5, to_resume := [] } rfl

/-- Claim C4 counterexample: a second `return_value` on an already-published
cell is neither rejected nor fatal — it silently overwrites the stored value
(here 1 becomes 2) and resumes the never-cleared waiter list again. -/
theorem second_publish_overwrites :
    (returnValue
        (returnValue ({ returned := false, value := 0, to_resume := [5] } : Holder Nat) 1).fst
        2).fst.value = 2 ∧
    (returnValue ({ returned := false, value := 0, to_resume := [5] } : Holder Nat) 1).fst.value
      = 1 ∧
    (returnValue
        (returnValue ({ returned := false, value := 0, to_resume := [5] } : Holder Nat) 1).fst
        2).snd = [5] := by
  decide

/-- Claim C4 as amended: `returned` is set to true by a publish and no
operation ever resets it, but a second publish is unguarded: it overwrites
the stored value with the new one and resumes the still-registered waiters
a second time. -/
theorem publish_monotone_but_unguarded (cell : Holder Nat) (v w : Nat) (h : Handle) :
    (returnValue cell v).fst.returned = true ∧
    (taskAwaitSuspend cell h).fst.returned = cell.returned ∧
    (returnValue (returnValue cell v).fst w).fst.value = w ∧
    (returnValue (returnValue cell v).fst w).fst.returned = true ∧
    (returnValue (returnValue cell v).fst w).snd = cell.to_resume := by
  refine ⟨rfl, ?_, rfl, rfl, rfl⟩
  by_cases hc : cell.returned <;> simp [taskAwaitSuspend, hc]

/-- Claim C5: refuted for completed bodies — `final_suspend` returns
`std::suspend_never`, so the frame of a task whose body has completed (and
the result cell inside its promise) is destroyed automatically at
completion; the destructor of `Task` then calls `destroy()` on that same
frame again because the stored handle was never nulled: two destroys rather
than one destruction at Task-destruction time. -/
theorem completed_task_double_destroy :
    autoDestroyAtCompletion = true ∧
    frameDestroys true { handle := some 0 } = 2 ∧
    frameDestroys false { handle := some 0 } = 1 := by
  decide

/-- Claim C6: publishing after registering the waiters W1..WN in order on a
fresh, not-yet-completed cell resumes exactly the handles W1..WN, each once,
in registration order. -/
theorem publish_resumes_in_registration_order (ws : List Handle) (v : Nat)
    (cell : Holder Nat) (hnc : cell.returned = false) (hw : cell.to_resume = []) :
    (returnValue (registerAll cell ws) v).snd = ws := by
  have h := registerAll_not_returned ws cell hnc
  simp [returnValue, h.2, hw]

/-- Witness: `publish_resumes_in_registration_order` on three waiters. -/
theorem publish_resumes_in_registration_order_witness :
    (returnValue
        (registerAll ({ returned := false, value := 0, to_resume := [] } : Holder Nat) [1, 2, 3])
        9).snd = [1, 2, 3] :=
  publish_resumes_in_registration_order [1, 2, 3] 9
    { returned := false, value := 0, to_resume := [] } rfl rfl

/-- Claim C7: a suspend on a deferred awaitable either resumes the handle
immediately (cell observed completed under the lock; nothing appended) or
appends it to the waiter list (cell not completed; nothing resumed), both
for `Async::await_suspend` and for `Task::await_suspend`; and a handle not
already registered is resumed exactly once overall, whether the suspend runs
after the publish (immediate resume) or before it (resumed by the publish). -/
theorem awaitSuspend_registers_or_resumes_once (cell : Holder Nat) (h : Handle) (v : Nat)
    (hfresh : h ∉ cell.to_resume) :
    (cell.returned = true →
      taskAwaitSuspend cell h = (cell, [h]) ∧
      asyncAwaitSuspend (.deferred cell) h = .ok (cell, [h])) ∧
    (cell.returned = false →
      (taskAwaitSuspend cell h).fst.to_resume = cell.to_resume ++ [h] ∧
      (taskAwaitSuspend cell h).snd = [] ∧
      asyncAwaitSuspend (.deferred cell) h = .ok (taskAwaitSuspend cell h)) ∧
    ((taskAwaitSuspend cell h).snd ++
        (if cell.returned then []
         else (returnValue (taskAwaitSuspend cell h).fst v).snd)).count h = 1 := by
  refine ⟨fun hret => ?_, fun hret => ?_, ?_⟩
  · simp [taskAwaitSuspend, asyncAwaitSuspend, hret]
  · simp [taskAwaitSuspend, asyncAwaitSuspend, hret]
  · by_cases hc : cell.returned
    · simp [taskAwaitSuspend, hc]
    · simp [taskAwaitSuspend, returnValue, hc, List.count_append,
        List.count_eq_zero.mpr hfresh]

/-- Witness: `awaitSuspend_registers_or_resumes_once` on an empty cell with
handle 2, taking the exactly-once conjunct. -/
theorem awaitSuspend_registers_or_resumes_once_witness :
    (2 : Handle) ∉ ({ returned := false, value := 0, to_resume := [] } : Holder Nat).to_resume ∧
    ((taskAwaitSuspend ({ returned := false, value := 0, to_resume := [] } : Holder Nat) 2).snd ++
        (if ({ returned := false, value := 0, to_resume := [] } : Holder Nat).returned then []
         else (returnValue
            (taskAwaitSuspend ({ returned := false, value := 0, to_resume := [] } : Holder Nat)
              2).fst 9).snd)).count 2 = 1 :=
  ⟨by decide,
    (awaitSuspend_registers_or_resumes_once
      { returned := false, value := 0, to_resume := [] } 2 9 (by decide)).2.2⟩

/-- Claim C8: an immediate awaitable is always ready and its suspend path is
fatal before touching any cell, so it never registers a waiter; a deferred
awaitable reports readiness as exactly the `returned` flag of its cell, and
the trace of that check reads the flag between the mutex acquire and the
release. -/
theorem immediate_ready_deferred_snapshot (v : Nat) (cell : Holder Nat) (h : Handle) :
    asyncAwaitReady (AsyncOf.immediate v) = true ∧
    asyncAwaitSuspend (AsyncOf.immediate v) h = Outcome.terminated ∧
    asyncAwaitReady (AsyncOf.deferred cell) = cell.returned ∧
    asyncAwaitReadyTrace[1]? = some (Ev.read .returned) ∧
    heldAt asyncAwaitReadyTrace 1 = true := by
  exact ⟨rfl, rfl, rfl, rfl, rfl⟩

/-- Claim C9: after move construction the target holds the handle of the
source, the source handle is null, and destroying the moved-from Task
performs no destroy of the computation frame; the embedding carries no copy
operation, mirroring the deleted copy constructor on line 174. -/
theorem move_source_inert (rhs : TaskObj) :
    (taskMoveCtor rhs).fst.handle = rhs.handle ∧
    (taskMoveCtor rhs).snd.handle = none ∧
    taskDtorDestroys (taskMoveCtor rhs).snd = false := by
  exact ⟨rfl, rfl, rfl⟩

/-- Claim C10: the TELEMETRY build of `await_ready` returns exactly the same
boolean as the plain build on every awaitable and every cell state, and its
only effect on the stats is one increment: the three counters sum to one
more than before and none of them decreases. -/
theorem telemetry_never_gates (a : AsyncOf Nat) (s : ExecutorStats) :
    (asyncAwaitReadyTelemetry a s).fst = asyncAwaitReady a ∧
    ((asyncAwaitReadyTelemetry a s).snd.total_awaitable_ready +
      (asyncAwaitReadyTelemetry a s).snd.total_awaitable_need_to_wait +
      (asyncAwaitReadyTelemetry a s).snd.total_immediate_ready)
      = s.total_awaitable_ready + s.total_awaitable_need_to_wait +
          s.total_immediate_ready + 1 ∧
    s.total_awaitable_ready ≤ (asyncAwaitReadyTelemetry a s).snd.total_awaitable_ready ∧
    s.total_awaitable_need_to_wait
      ≤ (asyncAwaitReadyTelemetry a s).snd.total_awaitable_need_to_wait ∧
    s.total_immediate_ready ≤ (asyncAwaitReadyTelemetry a s).snd.total_immediate_ready := by
  have hsum : ∀ x y z : Nat, x + y + (z + 1) = x + y + z + 1 := by omega
  have hsum2 : ∀ x y z : Nat, x + (y + 1) + z = x + y + z + 1 := by omega
  have hsum3 : ∀ x y z : Nat, x + 1 + y + z = x + y + z + 1 := by omega
  cases a with
  | immediate v =>
    exact ⟨rfl, hsum _ _ _, Nat.le_refl _, Nat.le_refl _, Nat.le_succ _⟩
  | deferred cell =>
    by_cases hc : cell.returned
    · refine ⟨?_, ?_, ?_, ?_, ?_⟩ <;>
        simp [asyncAwaitReadyTelemetry, asyncAwaitReady, hc, hsum3 _ _ _]
    · refine ⟨?_, ?_, ?_, ?_, ?_⟩ <;>
        simp [asyncAwaitReadyTelemetry, asyncAwaitReady, hc, hsum2 _ _ _]

end CodeCC
